import Mathlib

/-
Verification of the Dosa_Club repository against its specification.

The file embeds, as executable Lean definitions, the parts of the code the
claims are about: the axios response interceptor of the frontend ApiService,
the catch branches of ProcessingScreen and GuestQuestionnaireScreen, the
guest health-data defaulting, the required-field guard of ProcessingScreen,
and the admin menu-item save payload.  The backend resilience core
(circuit breaker, retry executor, LRU cache, BMI computation) is not part of
the source tree, so those components are modelled from the specification, as
marked on each definition.
-/

namespace DosaClub

/-- Diet type enum, from the frontend type definitions (`UserData.diet_type`). -/
inductive DietType
  | veg | egg | nonVeg
deriving DecidableEq, Repr

/-- Health goal enum (`UserData.health_goal`). -/
inductive HealthGoal
  | weightLoss | weightGain | balanced
deriving DecidableEq, Repr

/-- Medical condition enum (`UserData.medical_condition`). -/
inductive MedicalCondition
  | none | diabetes | bp | acidity
deriving DecidableEq, Repr

/-- Spice tolerance enum (`UserData.spice_tolerance`). -/
inductive SpiceTolerance
  | low | medium | high
deriving DecidableEq, Repr

/-- Gender enum (`UserData.gender`). -/
inductive Gender
  | male | female | other
deriving DecidableEq, Repr

/-- BMI category, the four classes used by the health rules. -/
inductive BmiCategory
  | underweight | normal | overweight | obese
deriving DecidableEq, Repr

/-- Suitability tags of a menu item (`MenuItem.suitable_for` in the frontend types):
a list of BMI-category names and a list of medical-condition names. -/
structure SuitableFor where
  bmi_categories : List String
  medical_conditions : List String
deriving DecidableEq, Repr

/-- A catalog item, from the frontend `MenuItem` interface. -/
structure MenuItem where
  item_id : String
  item_name : String
  calories : Nat
  spice_level : String
  oil_level : String
  diet_type : String
  image_url : Option String
  suitable_for : SuitableFor
deriving DecidableEq, Repr

/-- The per-request suggestion payload, from the frontend `SuggestionResponse`
interface. -/
structure SuggestionResponse where
  health_summary : String
  bmi_category : String
  suggested_item : String
  suggested_item_details : Option MenuItem
  similar_items : List MenuItem
  reason : String
deriving DecidableEq, Repr

/-- Substring test on character lists: does `pat` occur contiguously in `hay`? -/
def hasSubstr (hay pat : List Char) : Bool :=
  match hay with
  | [] => pat.isEmpty
  | _ :: t => pat.isPrefixOf hay || hasSubstr t pat

/-- Substring test on strings, modelling the JavaScript `String.includes`. -/
def strContains (s pat : String) : Bool :=
  hasSubstr s.data pat.data

/-- JavaScript `a || b` for strings: the empty string is falsy. -/
def jsOrStr (a b : String) : String :=
  if a == "" then b else a

/-- JavaScript `a || b` where `a` may be absent (`undefined`). -/
def jsOrOpt (a : Option String) (b : String) : String :=
  match a with
  | some s => jsOrStr s b
  | none => b

/-- Body of an HTTP error response (`error.response.data`): FastAPI-style
`detail` and an optional `message`. -/
structure ResponseData where
  detail : Option String
  message : Option String
deriving DecidableEq, Repr

/-- An axios error as seen by the response interceptor: `error.code`,
`error.message`, `error.response?.status` and `error.response?.data`
(`respData = none` models an absent or falsy body). -/
structure AxiosError where
  code : Option String
  message : String
  respStatus : Option Nat
  respData : Option ResponseData
deriving DecidableEq, Repr

/-- The value the interceptor rejects with: `error.response?.data || error`
(src/frontend/src/theme/antd-theme.ts, ApiService constructor). -/
inductive RejectedValue
  | body (d : ResponseData)
  | raw (e : AxiosError)
deriving DecidableEq, Repr

/-- Timeout detection in the interceptor:
`error.code === 'ECONNABORTED' || error.message.includes('timeout')`. -/
def isTimeout (e : AxiosError) : Bool :=
  e.code == some "ECONNABORTED" || strContains e.message "timeout"

/-- The literal fallback suggestion the interceptor resolves with on timeout
(src/frontend/src/theme/antd-theme.ts, ApiService constructor). -/
def timeoutFallback : SuggestionResponse :=
  { health_summary := "Your BMI is normal. Using safe recommendation due to timeout."
    bmi_category := "normal"
    suggested_item := "Plain Idli"
    suggested_item_details := none
    similar_items := []
    reason := "Safe, low-calorie option suitable for your health profile." }

/-- The ApiService response interceptor on an errored response: timeouts are
resolved with the fixed fallback suggestion, every other error is rejected
with `error.response?.data || error`. -/
def interceptOnError (e : AxiosError) : Except RejectedValue SuggestionResponse :=
  if isTimeout e then Except.ok timeoutFallback
  else Except.error (match e.respData with
    | some d => RejectedValue.body d
    | none => RejectedValue.raw e)

/-- What the end user sees for one request: a suggestion rendered on the
recommendation screen, or an error message toast. -/
inductive Outcome
  | suggestion (s : SuggestionResponse)
  | errorMessage (m : String)
deriving DecidableEq, Repr

/-- The catch branch of `ProcessingScreen.fetchSuggestion` (registered-user
path): a 422 status gets a dedicated message, otherwise
`error.message || 'Unable to get recommendation. Please try again.'`. -/
def processingCatch (r : RejectedValue) : String :=
  match r with
  | RejectedValue.raw e =>
      if e.respStatus == some 422 then "Incomplete data. Please retake the questionnaire."
      else jsOrStr e.message "Unable to get recommendation. Please try again."
  | RejectedValue.body d =>
      jsOrOpt d.message "Unable to get recommendation. Please try again."

/-- End-to-end outcome of `getSuggestion` on the registered-user path: the
request either succeeds with a server suggestion or fails with an axios
error, which first passes the response interceptor and, if still rejected,
the ProcessingScreen catch branch. -/
def registeredPath (res : Except AxiosError SuggestionResponse) : Outcome :=
  match res with
  | Except.ok s => Outcome.suggestion s
  | Except.error e =>
      match interceptOnError e with
      | Except.ok s => Outcome.suggestion s
      | Except.error r => Outcome.errorMessage (processingCatch r)

/-- The literal fallback suggestion built in the catch branch of
`GuestQuestionnaireScreen.handleSubmit` for 500/404 server errors. -/
def guestFallback : SuggestionResponse :=
  { health_summary := "Based on your profile, we recommend a balanced diet approach."
    bmi_category := "normal"
    suggested_item := "Plain Dosa"
    suggested_item_details := none
    similar_items := []
    reason := "Safe, nutritious option suitable for your health profile." }

/-- The catch branch of `GuestQuestionnaireScreen.handleSubmit`, applied to
the value the interceptor rejected with.  The 500/404 fallback fires only
when the rejected value still has a `response` property, i.e. only in the
`raw` case; a rejected response body skips it. -/
def guestCatch (r : RejectedValue) : Outcome :=
  match r with
  | RejectedValue.raw e =>
      if e.respStatus == some 500 || e.respStatus == some 404 then
        Outcome.suggestion guestFallback
      else
        match e.respData with
        | some d =>
            Outcome.errorMessage
              (jsOrStr (jsOrOpt d.detail (jsOrOpt d.message ""))
                "Failed to get recommendation")
        | none =>
            Outcome.errorMessage (jsOrStr ("Error: " ++ e.message)
              "Failed to get recommendation. Please try again.")
  | RejectedValue.body d =>
      if (match d.detail with
          | some s => strContains s "Invalid or expired guest session"
          | none => false) then
        Outcome.errorMessage "Session expired. Please start again."
      else
        match d.message with
        | some m =>
            if m == "" then
              Outcome.errorMessage "Failed to get recommendation. Please try again."
            else Outcome.errorMessage ("Error: " ++ m)
        | none => Outcome.errorMessage "Failed to get recommendation. Please try again."

/-- End-to-end outcome of `getGuestSuggestion` on the guest path: response
interceptor first, then the guest catch branch. -/
def guestPath (res : Except AxiosError SuggestionResponse) : Outcome :=
  match res with
  | Except.ok s => Outcome.suggestion s
  | Except.error e =>
      match interceptOnError e with
      | Except.ok s => Outcome.suggestion s
      | Except.error r => guestCatch r

/-- Does a text explicitly signal degraded service / a safe default? -/
def mentionsDegradation (s : String) : Bool :=
  strContains s "timeout" || strContains s "degrad" || strContains s "unavailable"
    || strContains s "fallback" || strContains s "default"

/-- A concrete network failure: no response at all (server unreachable). -/
def connError : AxiosError :=
  { code := none, message := "Network Error", respStatus := none, respData := none }

/-- A concrete timeout failure as axios reports it. -/
def timeoutError : AxiosError :=
  { code := some "ECONNABORTED", message := "timeout of 30000ms exceeded"
    respStatus := none, respData := none }

/-- A concrete 500 server failure with an empty (falsy) body. -/
def serverError500 : AxiosError :=
  { code := none, message := "Request failed with status code 500"
    respStatus := some 500, respData := none }

/-- A concrete 500 server failure with a truthy JSON body, as FastAPI
returns: the interceptor then rejects with the body, which has no
`response` property. -/
def serverError500Body : AxiosError :=
  { code := none, message := "Request failed with status code 500"
    respStatus := some 500
    respData := some { detail := some "Internal Server Error", message := none } }

/-- A complete guest health record, from the frontend `GuestData` interface. -/
structure GuestData where
  age : Nat
  gender : Gender
  height_cm : Nat
  weight_kg : Nat
  diet_type : DietType
  health_goal : HealthGoal
  medical_condition : MedicalCondition
  spice_tolerance : SpiceTolerance
deriving DecidableEq, Repr

/-- An in-progress guest form record (`Partial<GuestData>` in the source):
every field may still be absent. -/
structure DraftGuestData where
  age : Option Nat
  gender : Option Gender
  height_cm : Option Nat
  weight_kg : Option Nat
  diet_type : Option DietType
  health_goal : Option HealthGoal
  medical_condition : Option MedicalCondition
  spice_tolerance : Option SpiceTolerance
deriving DecidableEq, Repr

/-- The empty guest form: nothing answered yet. -/
def emptyDraftGuest : DraftGuestData :=
  { age := none, gender := none, height_cm := none, weight_kg := none
    diet_type := none, health_goal := none, medical_condition := none
    spice_tolerance := none }

/-- One numeric field of the guest merge
`completeData.x || formData.x || default` followed by the `...completeData`
spread: a field present in `completeData` wins even when it is `0`; a field
only in `formData` is used when truthy (non-zero); otherwise the default. -/
def mergeNum (c f : Option Nat) (dflt : Nat) : Nat :=
  match c with
  | some v => v
  | none =>
      match f with
      | some v => if v = 0 then dflt else v
      | none => dflt

/-- One enum-valued field of the guest merge: present values are always
truthy, so `completeData` wins, then `formData`, then the default. -/
def mergeOpt {α : Type} (c f : Option α) (dflt : α) : α :=
  match c with
  | some v => v
  | none =>
      match f with
      | some v => v
      | none => dflt

/-- The `healthData` merge of `GuestQuestionnaireScreen.handleSubmit`
(src/unnamed/part_008, lines 85 to 95): every missing field is replaced by a
fixed default and a fully populated record is always produced. -/
def buildHealthData (completeData formData : DraftGuestData) : GuestData :=
  { age := mergeNum completeData.age formData.age 25
    gender := mergeOpt completeData.gender formData.gender Gender.other
    height_cm := mergeNum completeData.height_cm formData.height_cm 170
    weight_kg := mergeNum completeData.weight_kg formData.weight_kg 70
    diet_type := mergeOpt completeData.diet_type formData.diet_type DietType.veg
    health_goal := mergeOpt completeData.health_goal formData.health_goal HealthGoal.balanced
    medical_condition :=
      mergeOpt completeData.medical_condition formData.medical_condition MedicalCondition.none
    spice_tolerance :=
      mergeOpt completeData.spice_tolerance formData.spice_tolerance SpiceTolerance.medium }

/-- The registered-user context data (`Partial<UserData>` held by
`UserContext`): every field may be absent. -/
structure DraftUserData where
  name : Option String
  phone_number : Option String
  age : Option Nat
  email : Option String
  gender : Option Gender
  height_cm : Option Nat
  weight_kg : Option Nat
  diet_type : Option DietType
  health_goal : Option HealthGoal
  medical_condition : Option MedicalCondition
  spice_tolerance : Option SpiceTolerance
deriving DecidableEq, Repr

/-- JavaScript falsiness of an optional string field: absent or empty. -/
def strFalsy : Option String → Bool
  | Option.none => true
  | some s => s == ""

/-- JavaScript falsiness of an optional numeric field: absent or zero. -/
def natFalsy : Option Nat → Bool
  | Option.none => true
  | some n => n == 0

/-- JavaScript falsiness of an optional enum field: only absence is falsy
(the stored values are non-empty strings). -/
def optFalsy {α : Type} : Option α → Bool
  | Option.none => true
  | some _ => false

/-- The `requiredFields` check list of `ProcessingScreen.fetchSuggestion`
(src/unnamed/part_001, lines 400 to 422): field name paired with the
`!userData[field]` test.  `email` and `gender` are not required. -/
def requiredFieldChecks : List (String × (DraftUserData → Bool)) :=
  [("name", fun u => strFalsy u.name),
   ("phone_number", fun u => strFalsy u.phone_number),
   ("age", fun u => natFalsy u.age),
   ("height_cm", fun u => natFalsy u.height_cm),
   ("weight_kg", fun u => natFalsy u.weight_kg),
   ("diet_type", fun u => optFalsy u.diet_type),
   ("medical_condition", fun u => optFalsy u.medical_condition),
   ("health_goal", fun u => optFalsy u.health_goal),
   ("spice_tolerance", fun u => optFalsy u.spice_tolerance)]

/-- `missingFields = requiredFields.filter(field => !userData[field])`. -/
def missingFields (u : DraftUserData) : List String :=
  (requiredFieldChecks.filter (fun p => p.2 u)).map Prod.fst

/-- What `ProcessingScreen.fetchSuggestion` does next: navigate back to the
start screen, or make the `getSuggestion` API call. -/
inductive FetchAction
  | navStart | callApi
deriving DecidableEq, Repr

/-- The required-field guard: with any missing field the screen returns to
`/start` and the API-call branch is never reached. -/
def fetchSuggestionAction (u : DraftUserData) : FetchAction :=
  if 0 < (missingFields u).length then FetchAction.navStart else FetchAction.callApi

/-- The editable form values of the admin menu-item modal
(src/unnamed/part_009): everything the form collects. -/
structure MenuFormValues where
  item_name : String
  image_url : Option String
  calories : Nat
  diet_type : String
  spice_level : String
  oil_level : String
deriving DecidableEq, Repr

/-- The payload `AdminDashboardScreen.handleSave` posts to the backend. -/
structure SavePayload where
  values : MenuFormValues
  suitable_for : SuitableFor
deriving DecidableEq, Repr

/-- The safe default suitability used for newly created items
(src/unnamed/part_009, lines 62 to 80). -/
def defaultSuitableFor : SuitableFor :=
  { bmi_categories := ["underweight", "normal", "overweight", "obese"]
    medical_conditions := ["none", "diabetes", "bp", "acidity"] }

/-- `AdminDashboardScreen.handleSave`: the payload spreads the form values
and sets `suitable_for` to `editingItem?.suitable_for || defaults`. -/
def buildSavePayload (editingItem : Option MenuItem) (values : MenuFormValues) : SavePayload :=
  { values := values
    suitable_for :=
      match editingItem with
      | some it => it.suitable_for
      | Option.none => defaultSuitableFor }

/-- String name of a BMI category as stored in `suitable_for`. -/
def bmiCategoryName : BmiCategory → String
  | BmiCategory.underweight => "underweight"
  | BmiCategory.normal => "normal"
  | BmiCategory.overweight => "overweight"
  | BmiCategory.obese => "obese"

/-- String name of a medical condition as stored in `suitable_for`. -/
def conditionName : MedicalCondition → String
  | MedicalCondition.none => "none"
  | MedicalCondition.diabetes => "diabetes"
  | MedicalCondition.bp => "bp"
  | MedicalCondition.acidity => "acidity"

/-- Modelled from the spec: the BMI computation lives in the backend
(`app/services/enhanced_health_logic.py` and the user intake route), which is
not under src/.  BMI = weight_kg / (height_m)^2 with height_m = height_cm / 100. -/
def bmi (weight_kg height_cm : ℚ) : ℚ :=
  weight_kg / ((height_cm / 100) * (height_cm / 100))

/-- Modelled from the spec: BMI category via the fixed thresholds 18.5, 25
and 30 (backend code not under src/). -/
def bmiCategoryOf (b : ℚ) : BmiCategory :=
  if b < 37 / 2 then BmiCategory.underweight
  else if b < 25 then BmiCategory.normal
  else if b < 30 then BmiCategory.overweight
  else BmiCategory.obese

/-- Circuit breaker state (spec section 4.2). -/
inductive BreakerState
  | closed | opened | halfOpen
deriving DecidableEq, Repr

/-- Circuit breaker configuration (spec section 4.2). -/
structure BreakerConfig where
  failureThreshold : Nat
  recoveryTimeout : Nat
  successThreshold : Nat
deriving DecidableEq, Repr

/-- Modelled from the spec: per-operation circuit breaker state
(`app/services/circuit_breaker.py` is not under src/). -/
structure Breaker where
  state : BreakerState
  failureCount : Nat
  successCount : Nat
  transitionTime : Nat
deriving DecidableEq, Repr

/-- A freshly constructed breaker: Closed with all counters at zero. -/
def freshBreaker : Breaker :=
  { state := BreakerState.closed, failureCount := 0, successCount := 0, transitionTime := 0 }

/-- Outcome of one guarded call: `rejected` means the protected operation was
not invoked (short-circuit); `completed r` means it ran and returned `r`. -/
inductive CallOutcome
  | rejected
  | completed (success : Bool)
deriving DecidableEq, Repr

/-- Modelled from the spec: one call through the circuit breaker
(`app/services/circuit_breaker.py` is not under src/; transition algorithm of
spec section 4.2).  In Closed, failures are counted and reaching the
threshold opens the circuit, recording the transition time; while Open and
before the recovery timeout the call is rejected without invoking the
operation; once the timeout elapses the next call probes in Half-Open; probe
successes close the circuit after `successThreshold` consecutive successes
and any probe failure reopens it, resetting the recovery timer. -/
def breakerCall (cfg : BreakerConfig) (b : Breaker) (now : Nat) (opSucceeds : Bool) :
    Breaker × CallOutcome :=
  match b.state with
  | BreakerState.closed =>
      if opSucceeds then
        ({ b with failureCount := 0 }, CallOutcome.completed true)
      else
        if cfg.failureThreshold ≤ b.failureCount + 1 then
          ({ state := BreakerState.opened, failureCount := b.failureCount + 1
             successCount := 0, transitionTime := now }, CallOutcome.completed false)
        else
          ({ b with failureCount := b.failureCount + 1 }, CallOutcome.completed false)
  | BreakerState.opened =>
      if now - b.transitionTime < cfg.recoveryTimeout then
        (b, CallOutcome.rejected)
      else
        if opSucceeds then
          if cfg.successThreshold ≤ 1 then
            ({ state := BreakerState.closed, failureCount := 0
               successCount := 0, transitionTime := now }, CallOutcome.completed true)
          else
            ({ state := BreakerState.halfOpen, failureCount := b.failureCount
               successCount := 1, transitionTime := b.transitionTime },
             CallOutcome.completed true)
        else
          ({ state := BreakerState.opened, failureCount := b.failureCount
             successCount := 0, transitionTime := now }, CallOutcome.completed false)
  | BreakerState.halfOpen =>
      if opSucceeds then
        if cfg.successThreshold ≤ b.successCount + 1 then
          ({ state := BreakerState.closed, failureCount := 0
             successCount := 0, transitionTime := now }, CallOutcome.completed true)
        else
          ({ b with successCount := b.successCount + 1 }, CallOutcome.completed true)
      else
        ({ state := BreakerState.opened, failureCount := b.failureCount
           successCount := 0, transitionTime := now }, CallOutcome.completed false)

/-- `n` consecutive failing calls through the breaker, all at time `now`. -/
def applyFailures (cfg : BreakerConfig) (b : Breaker) (now : Nat) : Nat → Breaker
  | 0 => b
  | n + 1 => (breakerCall cfg (applyFailures cfg b now n) now false).1

/-- Modelled from the spec: backoff delay slept after failed attempt `n`
(1-indexed), `baseDelay * 2 ^ (n - 1) + jitter` with the jitter drawn from
`[0, baseDelay)` (`app/services/retry_service.py` is not under src/). -/
def backoffAfter (baseDelay n jitter : Nat) : Nat :=
  baseDelay * 2 ^ (n - 1) + jitter

/-- The delay observed before attempt `m` (for `m ≥ 2`) is the backoff slept
after the failed attempt `m - 1`. -/
def delayBeforeAttempt (baseDelay m jitter : Nat) : Nat :=
  backoffAfter baseDelay (m - 1) jitter

/-- Modelled from the spec: the bounded LRU cache
(`app/services/cache_service.py` is not under src/).  Entries are kept in a
most-recently-used-first list; the last entry is the least recently accessed.
TTL expiry is orthogonal to the eviction order the claim is about and is not
modelled. -/
structure LruCache where
  maxSize : Nat
  entries : List (String × String)
deriving DecidableEq, Repr

/-- Modelled from the spec: `put(key, value)`.  An existing key is updated
and moved to the front; a fresh key is inserted at the front, evicting the
least-recently-used (last) entry first when the cache is at capacity.  The
second component lists the evicted entries of this operation. -/
def cachePut (c : LruCache) (k v : String) : LruCache × List (String × String) :=
  if c.entries.any (fun e => e.1 == k) then
    ({ c with entries := (k, v) :: c.entries.filter (fun e => !(e.1 == k)) }, [])
  else if c.entries.length < c.maxSize then
    ({ c with entries := (k, v) :: c.entries }, [])
  else
    ({ c with entries := (k, v) :: c.entries.dropLast }, c.entries.getLast?.toList)

/-- A sequence of put operations, collecting all evicted entries in order. -/
def cachePutAll (c : LruCache) : List (String × String) → LruCache × List (String × String)
  | [] => (c, [])
  | (k, v) :: rest =>
      ((cachePutAll (cachePut c k v).1 rest).1,
       (cachePut c k v).2 ++ (cachePutAll (cachePut c k v).1 rest).2)

/-- C7: for every UserProfile the derived BMI equals weight_kg divided by the
square of height in metres, and the BMI category is determined by the fixed
thresholds 18.5, 25 and 30, partitioning into underweight, normal,
overweight and obese. -/
theorem bmi_formula_and_thresholds :
    (∀ w h : ℚ, bmi w h = w / (h / 100) ^ 2) ∧
    (∀ b : ℚ,
      (bmiCategoryOf b = BmiCategory.underweight ↔ b < 18.5) ∧
      (bmiCategoryOf b = BmiCategory.normal ↔ 18.5 ≤ b ∧ b < 25) ∧
      (bmiCategoryOf b = BmiCategory.overweight ↔ 25 ≤ b ∧ b < 30) ∧
      (bmiCategoryOf b = BmiCategory.obese ↔ 30 ≤ b)) := by
  constructor
  · intro w h
    unfold bmi
    ring_nf
  · intro b
    have h185 : (37 : ℚ) / 2 = 18.5 := by norm_num
    unfold bmiCategoryOf
    rw [h185]
    split_ifs with h1 h2 h3 <;>
      simp only [reduceCtorEq, false_iff, true_iff, iff_true, iff_false, not_and, not_lt,
        not_le] <;>
      refine ⟨?_, ?_, ?_, ?_⟩ <;>
      first
        | linarith
        | (intro h4; linarith)
        | (constructor <;> linarith)

/-- C8: on the guest path every missing form field is silently replaced by
its fixed default (age 25, gender other, height 170, weight 70, diet veg,
goal balanced, condition none, spice medium) and a fully populated
health_data record is always produced. -/
theorem guest_defaults_fill_missing_fields :
    ∀ c f : DraftGuestData,
      (c.age = none → f.age = none → (buildHealthData c f).age = 25) ∧
      (c.gender = none → f.gender = none → (buildHealthData c f).gender = Gender.other) ∧
      (c.height_cm = none → f.height_cm = none → (buildHealthData c f).height_cm = 170) ∧
      (c.weight_kg = none → f.weight_kg = none → (buildHealthData c f).weight_kg = 70) ∧
      (c.diet_type = none → f.diet_type = none →
        (buildHealthData c f).diet_type = DietType.veg) ∧
      (c.health_goal = none → f.health_goal = none →
        (buildHealthData c f).health_goal = HealthGoal.balanced) ∧
      (c.medical_condition = none → f.medical_condition = none →
        (buildHealthData c f).medical_condition = MedicalCondition.none) ∧
      (c.spice_tolerance = none → f.spice_tolerance = none →
        (buildHealthData c f).spice_tolerance = SpiceTolerance.medium) := by
  intro c f
  refine ⟨?_, ?_, ?_, ?_, ?_, ?_, ?_, ?_⟩ <;>
    · intro h1 h2
      simp [buildHealthData, mergeNum, mergeOpt, h1, h2]

/-- Witness for C8: with a completely empty guest form, every defaulted
field takes its stated value. -/
theorem guest_defaults_fill_missing_fields_witness :
    emptyDraftGuest.age = none ∧
    (buildHealthData emptyDraftGuest emptyDraftGuest).age = 25 ∧
    (buildHealthData emptyDraftGuest emptyDraftGuest).medical_condition =
      MedicalCondition.none :=
  ⟨rfl,
   (guest_defaults_fill_missing_fields emptyDraftGuest emptyDraftGuest).1 rfl rfl,
   (guest_defaults_fill_missing_fields emptyDraftGuest emptyDraftGuest).2.2.2.2.2.2.1 rfl rfl⟩

/-- C10: admin save preserves an edited item's suitability unchanged, and a
newly created item receives the full default suitability, making it eligible
for every (BMI category, medical condition) pair. -/
theorem admin_save_suitability :
    (∀ (it : MenuItem) (vals : MenuFormValues),
      (buildSavePayload (some it) vals).suitable_for = it.suitable_for) ∧
    (∀ vals : MenuFormValues,
      (buildSavePayload none vals).suitable_for = defaultSuitableFor) ∧
    (∀ b : BmiCategory, bmiCategoryName b ∈ defaultSuitableFor.bmi_categories) ∧
    (∀ m : MedicalCondition, conditionName m ∈ defaultSuitableFor.medical_conditions) := by
  refine ⟨fun it vals => rfl, fun vals => rfl, ?_, ?_⟩
  · intro b
    cases b <;> simp [bmiCategoryName, defaultSuitableFor]
  · intro m
    cases m <;> simp [conditionName, defaultSuitableFor]

/-- C5 counterexample: with baseDelay 500 and zero jitter the delay before
attempt 2 is 500 ms, not the 500 * 2 ^ (2 - 1) = 1000 ms the claim's
per-attempt formula demands; 1000 ms would also violate the claim's own
bracket [500 * 2 ^ (2 - 2), 500 * 2 ^ (2 - 2) + 500) = [500, 1000). -/
theorem retry_backoff_counterexample :
    delayBeforeAttempt 500 2 0 = 500 ∧ 500 * 2 ^ (2 - 1) + 0 = 1000 ∧
      delayBeforeAttempt 500 2 0 ≠ 500 * 2 ^ (2 - 1) + 0 := by decide

/-- C5 (amended): the delay before attempt m (m at least 2) equals
baseDelay * 2 ^ (m - 2) + jitter with jitter in [0, baseDelay), i.e. the
spec's formula indexes the failed attempt, not the upcoming one; for
baseDelay = 500 ms the delays before attempts 2 and 3 lie in [500, 1000)
and [1000, 1500) respectively. -/
theorem retry_backoff_bounds :
    (∀ base m jitter : Nat, jitter < base → 2 ≤ m →
      delayBeforeAttempt base m jitter = base * 2 ^ (m - 2) + jitter ∧
      base * 2 ^ (m - 2) ≤ delayBeforeAttempt base m jitter ∧
      delayBeforeAttempt base m jitter < base * 2 ^ (m - 2) + base) ∧
    (∀ jitter : Nat, jitter < 500 →
      500 ≤ delayBeforeAttempt 500 2 jitter ∧ delayBeforeAttempt 500 2 jitter < 1000 ∧
      1000 ≤ delayBeforeAttempt 500 3 jitter ∧ delayBeforeAttempt 500 3 jitter < 1500) := by
  constructor
  · intro base m jitter hj _
    unfold delayBeforeAttempt backoffAfter
    rw [Nat.sub_sub]
    exact ⟨rfl, Nat.le_add_right _ _, Nat.add_lt_add_left hj _⟩
  · intro jitter hj
    unfold delayBeforeAttempt backoffAfter
    norm_num
    omega

/-- Witness for C5: jitter 250 at base delay 500 before attempt 2. -/
theorem retry_backoff_bounds_witness :
    (250 < 500 ∧ 2 ≤ 2) ∧ delayBeforeAttempt 500 2 250 = 500 * 2 ^ (2 - 2) + 250 :=
  ⟨⟨by decide, by decide⟩, (retry_backoff_bounds.1 500 2 250 (by decide) (by decide)).1⟩

/-- C3 counterexample: the guest server-error fallback is a fallback-path
Suggestion whose reasonText (and health summary) contains no wording about
degraded service or a safe default at all. -/
theorem fallback_reason_counterexample :
    guestPath (Except.error serverError500) = Outcome.suggestion guestFallback ∧
    mentionsDegradation guestFallback.reason = false ∧
    mentionsDegradation guestFallback.health_summary = false := by decide

/-- C3 (amended): only the timeout fallback signals the degradation, and only
in its health_summary ("due to timeout"); the reason texts of both fallbacks
and the guest fallback's health_summary are generic safe-option phrases with
no degraded-service marker. -/
theorem fallback_reason_markers :
    mentionsDegradation timeoutFallback.health_summary = true ∧
    mentionsDegradation timeoutFallback.reason = false ∧
    mentionsDegradation guestFallback.health_summary = false ∧
    mentionsDegradation guestFallback.reason = false := by decide

/-- C2 counterexample: two requests that take fallback paths receive two
different items — Plain Idli from the timeout fallback and Plain Dosa from
the guest server-error fallback — so the fallback Suggestion is not one and
the same deterministic item. -/
theorem fallback_items_differ_counterexample :
    registeredPath (Except.error timeoutError) = Outcome.suggestion timeoutFallback ∧
    guestPath (Except.error serverError500) = Outcome.suggestion guestFallback ∧
    timeoutFallback.suggested_item = "Plain Idli" ∧
    guestFallback.suggested_item = "Plain Dosa" ∧
    timeoutFallback.suggested_item ≠ guestFallback.suggested_item := by decide

/-- C2 (amended): each fallback path returns its own fixed deterministic safe
item — every timeout yields exactly the constant Plain Idli suggestion and
every guest raw 500/404 failure yields exactly the constant Plain Dosa
suggestion — independent of the particular error, with no circuit-breaker,
retry or cache operation involved (both are literal constants). -/
theorem fallback_constant_per_path :
    (∀ e : AxiosError, isTimeout e = true →
      interceptOnError e = Except.ok timeoutFallback ∧
      registeredPath (Except.error e) = Outcome.suggestion timeoutFallback ∧
      guestPath (Except.error e) = Outcome.suggestion timeoutFallback) ∧
    (∀ e : AxiosError, isTimeout e = false → e.respData = none →
      (e.respStatus = some 500 ∨ e.respStatus = some 404) →
      guestPath (Except.error e) = Outcome.suggestion guestFallback) := by
  constructor
  · intro e ht
    have hi : interceptOnError e = Except.ok timeoutFallback := by
      simp [interceptOnError, ht]
    exact ⟨hi, by simp [registeredPath, hi], by simp [guestPath, hi]⟩
  · intro e ht hd hs
    have hi : interceptOnError e = Except.error (RejectedValue.raw e) := by
      simp [interceptOnError, ht, hd]
    rcases hs with h | h <;> simp [guestPath, hi, guestCatch, h]

/-- Witness for C2: concrete timeout and concrete raw 500 failure. -/
theorem fallback_constant_per_path_witness :
    isTimeout timeoutError = true ∧
    interceptOnError timeoutError = Except.ok timeoutFallback ∧
    (isTimeout serverError500 = false ∧
      guestPath (Except.error serverError500) = Outcome.suggestion guestFallback) :=
  ⟨by decide, (fallback_constant_per_path.1 timeoutError (by decide)).1, by decide,
   fallback_constant_per_path.2 serverError500 (by decide) (by decide) (Or.inl rfl)⟩

/-- C1 counterexample: a plain network failure (server unreachable, a
store-availability issue that is neither a timeout nor a guest raw 500/404)
on the registered-user path surfaces the raw technical message
"Network Error" to the end user instead of any suggestion. -/
theorem error_surfaced_counterexample :
    registeredPath (Except.error connError) = Outcome.errorMessage "Network Error" := by
  decide

/-- C1 (amended): a suggestion is guaranteed only for timeout failures
(either path, resolved by the interceptor) and for guest-path raw 500/404
failures with a falsy response body; every other failure on the
registered-user path surfaces an error message to the user. -/
theorem user_visible_error_handling :
    (∀ e : AxiosError, isTimeout e = true →
      registeredPath (Except.error e) = Outcome.suggestion timeoutFallback ∧
      guestPath (Except.error e) = Outcome.suggestion timeoutFallback) ∧
    (∀ e : AxiosError, isTimeout e = false → e.respData = none →
      (e.respStatus = some 500 ∨ e.respStatus = some 404) →
      guestPath (Except.error e) = Outcome.suggestion guestFallback) ∧
    (∀ e : AxiosError, isTimeout e = false →
      ∃ msg, registeredPath (Except.error e) = Outcome.errorMessage msg) ∧
    (∀ e : AxiosError, isTimeout e = false →
      (e.respData = none → e.respStatus ≠ some 500 ∧ e.respStatus ≠ some 404) →
      ∃ msg, guestPath (Except.error e) = Outcome.errorMessage msg) := by
  refine ⟨?_, ?_, ?_, ?_⟩
  · intro e ht
    have hi : interceptOnError e = Except.ok timeoutFallback := by
      simp [interceptOnError, ht]
    exact ⟨by simp [registeredPath, hi], by simp [guestPath, hi]⟩
  · intro e ht hd hs
    have hi : interceptOnError e = Except.error (RejectedValue.raw e) := by
      simp [interceptOnError, ht, hd]
    rcases hs with h | h <;> simp [guestPath, hi, guestCatch, h]
  · intro e ht
    cases hd : e.respData with
    | none =>
        exact ⟨processingCatch (RejectedValue.raw e),
          by simp [registeredPath, interceptOnError, ht, hd]⟩
    | some d =>
        exact ⟨processingCatch (RejectedValue.body d),
          by simp [registeredPath, interceptOnError, ht, hd]⟩
  · intro e ht hcond
    cases hd : e.respData with
    | some d =>
        have hi : interceptOnError e = Except.error (RejectedValue.body d) := by
          simp [interceptOnError, ht, hd]
        simp only [guestPath, hi]
        dsimp only [guestCatch]
        split_ifs with h1
        · exact ⟨_, rfl⟩
        · cases hm : d.message with
          | none => exact ⟨_, rfl⟩
          | some m =>
              dsimp only
              split_ifs with h2
              · exact ⟨_, rfl⟩
              · exact ⟨_, rfl⟩
    | none =>
        obtain ⟨h500, h404⟩ := hcond hd
        have hi : interceptOnError e = Except.error (RejectedValue.raw e) := by
          simp [interceptOnError, ht, hd]
        have hb1 : (e.respStatus == some 500) = false := by
          simpa using h500
        have hb2 : (e.respStatus == some 404) = false := by
          simpa using h404
        simp only [guestPath, hi]
        dsimp only [guestCatch]
        rw [hb1, hb2, hd]
        exact ⟨_, rfl⟩

/-- Witness for C1: a concrete timeout, a concrete guest raw 500, the
concrete network failure on the registered path, and a concrete guest 500
with a truthy body that surfaces an error message. -/
theorem user_visible_error_handling_witness :
    isTimeout timeoutError = true ∧
    registeredPath (Except.error timeoutError) = Outcome.suggestion timeoutFallback ∧
    (isTimeout serverError500 = false ∧
      guestPath (Except.error serverError500) = Outcome.suggestion guestFallback) ∧
    (isTimeout connError = false ∧
      ∃ msg, registeredPath (Except.error connError) = Outcome.errorMessage msg) ∧
    (isTimeout serverError500Body = false ∧
      ∃ msg, guestPath (Except.error serverError500Body) = Outcome.errorMessage msg) :=
  ⟨by decide, (user_visible_error_handling.1 timeoutError (by decide)).1,
   ⟨by decide,
    user_visible_error_handling.2.1 serverError500 (by decide) (by decide) (Or.inl rfl)⟩,
   ⟨by decide, user_visible_error_handling.2.2.1 connError (by decide)⟩,
   by decide,
   user_visible_error_handling.2.2.2 serverError500Body (by decide) (by decide)⟩

/-- Helper for C9: the missing-field list is empty exactly when all nine
required fields are truthy. -/
theorem missingFields_len_zero_iff (u : DraftUserData) :
    (missingFields u).length = 0 ↔
      (strFalsy u.name = false ∧ strFalsy u.phone_number = false ∧ natFalsy u.age = false ∧
       natFalsy u.height_cm = false ∧ natFalsy u.weight_kg = false ∧
       optFalsy u.diet_type = false ∧ optFalsy u.medical_condition = false ∧
       optFalsy u.health_goal = false ∧ optFalsy u.spice_tolerance = false) := by
  simp [missingFields, requiredFieldChecks, List.filter_eq_nil_iff]

/-- C9: on the registered-user path the API call is made exactly when none of
the nine required fields is missing or falsy; under any missing-field
precondition the screen returns to the start screen instead, so the API-call
branch is unreachable. -/
theorem processing_guard_blocks_api :
    ∀ u : DraftUserData,
      (fetchSuggestionAction u = FetchAction.callApi ↔
        (strFalsy u.name = false ∧ strFalsy u.phone_number = false ∧ natFalsy u.age = false ∧
         natFalsy u.height_cm = false ∧ natFalsy u.weight_kg = false ∧
         optFalsy u.diet_type = false ∧ optFalsy u.medical_condition = false ∧
         optFalsy u.health_goal = false ∧ optFalsy u.spice_tolerance = false)) ∧
      (fetchSuggestionAction u = FetchAction.navStart ↔
        ¬(strFalsy u.name = false ∧ strFalsy u.phone_number = false ∧ natFalsy u.age = false ∧
          natFalsy u.height_cm = false ∧ natFalsy u.weight_kg = false ∧
          optFalsy u.diet_type = false ∧ optFalsy u.medical_condition = false ∧
          optFalsy u.health_goal = false ∧ optFalsy u.spice_tolerance = false)) := by
  intro u
  have hcall : fetchSuggestionAction u = FetchAction.callApi ↔ (missingFields u).length = 0 := by
    unfold fetchSuggestionAction
    split_ifs with hl
    · simp only [reduceCtorEq, false_iff]
      omega
    · simp only [true_iff]
      omega
  have hnav : fetchSuggestionAction u = FetchAction.navStart ↔ ¬(missingFields u).length = 0 := by
    unfold fetchSuggestionAction
    split_ifs with hl
    · simp only [true_iff]
      omega
    · simp only [reduceCtorEq, false_iff, not_not]
      omega
  exact ⟨hcall.trans (missingFields_len_zero_iff u),
    hnav.trans (not_congr (missingFields_len_zero_iff u))⟩

/-- Helper for C4: below the failure threshold, consecutive failures keep the
breaker Closed and just count up. -/
theorem applyFailures_below_threshold (cfg : BreakerConfig) (now : Nat) :
    ∀ n, n < cfg.failureThreshold →
      applyFailures cfg freshBreaker now n =
        { state := BreakerState.closed, failureCount := n, successCount := 0
          transitionTime := 0 } := by
  intro n
  induction n with
  | zero => intro _; rfl
  | succ k ih =>
      intro hk
      have hk1 : k < cfg.failureThreshold := Nat.lt_of_succ_lt hk
      have hnot : ¬ cfg.failureThreshold ≤ k + 1 := by omega
      unfold applyFailures
      rw [ih hk1]
      simp [breakerCall, hnot]

/-- C4: circuit breaker transitions are monotonic per cycle — Closed opens
only after exactly failureThreshold consecutive failures (fewer keep it
Closed), the next call while Open is rejected without invoking the protected
operation, Open turns to a Half-Open probe only once the recovery timeout
has elapsed, Half-Open closes only upon reaching successThreshold
consecutive probe successes, and any probe failure reopens the circuit,
resetting the recovery timer. -/
theorem circuit_breaker_transitions :
    (∀ (cfg : BreakerConfig) (now n : Nat), n < cfg.failureThreshold →
      applyFailures cfg freshBreaker now n =
        { state := BreakerState.closed, failureCount := n, successCount := 0
          transitionTime := 0 }) ∧
    (∀ (cfg : BreakerConfig) (now : Nat) (r : Bool),
      0 < cfg.failureThreshold → 0 < cfg.recoveryTimeout →
      applyFailures cfg freshBreaker now cfg.failureThreshold =
        { state := BreakerState.opened, failureCount := cfg.failureThreshold
          successCount := 0, transitionTime := now } ∧
      breakerCall cfg (applyFailures cfg freshBreaker now cfg.failureThreshold) now r =
        (applyFailures cfg freshBreaker now cfg.failureThreshold, CallOutcome.rejected)) ∧
    (∀ (cfg : BreakerConfig) (b : Breaker) (now : Nat) (r : Bool),
      b.state = BreakerState.opened → now - b.transitionTime < cfg.recoveryTimeout →
      breakerCall cfg b now r = (b, CallOutcome.rejected)) ∧
    (∀ (cfg : BreakerConfig) (b : Breaker) (now : Nat),
      b.state = BreakerState.opened → cfg.recoveryTimeout ≤ now - b.transitionTime →
      ((breakerCall cfg b now false).1.state = BreakerState.opened ∧
        (breakerCall cfg b now false).1.transitionTime = now ∧
        (breakerCall cfg b now false).2 = CallOutcome.completed false) ∧
      (2 ≤ cfg.successThreshold →
        (breakerCall cfg b now true).1 =
          { state := BreakerState.halfOpen, failureCount := b.failureCount
            successCount := 1, transitionTime := b.transitionTime })) ∧
    (∀ (cfg : BreakerConfig) (b : Breaker) (now : Nat),
      b.state = BreakerState.halfOpen →
      ((breakerCall cfg b now false).1.state = BreakerState.opened ∧
        (breakerCall cfg b now false).1.transitionTime = now) ∧
      ((breakerCall cfg b now true).1.state =
        if cfg.successThreshold ≤ b.successCount + 1 then BreakerState.closed
        else BreakerState.halfOpen)) := by
  refine ⟨applyFailures_below_threshold, ?_, ?_, ?_, ?_⟩
  · intro cfg now r hft hrt
    obtain ⟨t, hteq⟩ : ∃ t, cfg.failureThreshold = t + 1 :=
      ⟨cfg.failureThreshold - 1, by omega⟩
    have hopen : applyFailures cfg freshBreaker now cfg.failureThreshold =
        { state := BreakerState.opened, failureCount := cfg.failureThreshold
          successCount := 0, transitionTime := now } := by
      rw [hteq]
      unfold applyFailures
      rw [applyFailures_below_threshold cfg now t (by omega)]
      simp [breakerCall, hteq]
    refine ⟨hopen, ?_⟩
    rw [hopen]
    simp [breakerCall, hrt]
  · intro cfg b now r hst hlt
    unfold breakerCall
    rw [hst]
    simp [hlt]
  · intro cfg b now hst hge
    have hnlt : ¬ now - b.transitionTime < cfg.recoveryTimeout := by omega
    constructor
    · unfold breakerCall
      rw [hst]
      simp [hnlt]
    · intro hs2
      have hns : ¬ cfg.successThreshold ≤ 1 := by omega
      unfold breakerCall
      rw [hst]
      simp [hnlt, hns]
  · intro cfg b now hst
    constructor
    · unfold breakerCall
      rw [hst]
      simp
    · simp only [breakerCall, hst]
      split_ifs <;> simp_all

/-- Witness for C4: threshold 3, recovery timeout 30, success threshold 2 —
two failures keep the breaker Closed, the third opens it, and the very next
call is rejected without invoking the protected operation. -/
theorem circuit_breaker_transitions_witness :
    (2 < 3 ∧
      applyFailures { failureThreshold := 3, recoveryTimeout := 30, successThreshold := 2 }
          freshBreaker 5 2 =
        { state := BreakerState.closed, failureCount := 2, successCount := 0
          transitionTime := 0 }) ∧
    breakerCall { failureThreshold := 3, recoveryTimeout := 30, successThreshold := 2 }
        (applyFailures { failureThreshold := 3, recoveryTimeout := 30, successThreshold := 2 }
          freshBreaker 5 3) 5 true =
      (applyFailures { failureThreshold := 3, recoveryTimeout := 30, successThreshold := 2 }
        freshBreaker 5 3, CallOutcome.rejected) :=
  ⟨⟨by decide,
    circuit_breaker_transitions.1
      { failureThreshold := 3, recoveryTimeout := 30, successThreshold := 2 } 5 2 (by decide)⟩,
   (circuit_breaker_transitions.2.1
      { failureThreshold := 3, recoveryTimeout := 30, successThreshold := 2 } 5 true
      (by decide) (by decide)).2⟩

/-- Helper for C6: a key that is not among the stored keys matches no entry. -/
theorem any_key_eq_false_of_not_mem (l : List (String × String)) (k : String)
    (h : k ∉ l.map Prod.fst) : l.any (fun e => e.1 == k) = false := by
  rw [List.any_eq_false]
  intro x hx
  simp only [Bool.not_eq_true, beq_eq_false_iff_ne, ne_eq]
  intro heq
  exact h (heq ▸ List.mem_map_of_mem Prod.fst hx)

/-- Helper for C6: filtering out a key that does occur strictly shrinks the
entry list. -/
theorem length_filter_out_lt (k : String) :
    ∀ l : List (String × String), l.any (fun e => e.1 == k) = true →
      (l.filter (fun e => !(e.1 == k))).length < l.length := by
  intro l
  induction l with
  | nil =>
      intro h
      simp at h
  | cons a t ih =>
      intro h
      by_cases ha : (a.1 == k) = true
      · rw [List.filter_cons_of_neg (by simp [ha])]
        exact Nat.lt_succ_of_le (List.length_filter_le _ _)
      · have ht : t.any (fun e => e.1 == k) = true := by
          simp only [List.any_cons, Bool.or_eq_true] at h
          rcases h with h | h
          · exact absurd h ha
          · exact h
        rw [List.filter_cons_of_pos (by simp [ha])]
        simpa using Nat.succ_lt_succ (ih ht)

/-- Helper for C6: a sequence of puts splits across list append. -/
theorem cachePutAll_append (l₁ l₂ : List (String × String)) :
    ∀ c : LruCache,
      cachePutAll c (l₁ ++ l₂) =
        ((cachePutAll (cachePutAll c l₁).1 l₂).1,
         (cachePutAll c l₁).2 ++ (cachePutAll (cachePutAll c l₁).1 l₂).2) := by
  induction l₁ with
  | nil =>
      intro c
      simp [cachePutAll]
  | cons a t ih =>
      intro c
      obtain ⟨k, v⟩ := a
      simp only [List.cons_append, cachePutAll, List.append_eq]
      rw [ih]
      simp [List.append_assoc]

/-- Helper for C6: putting fresh, pairwise distinct keys into a cache with
enough free room inserts them all most-recent-first and evicts nothing. -/
theorem cachePutAll_fresh :
    ∀ (ks : List (String × String)) (ms : Nat) (es : List (String × String)),
      (∀ p ∈ ks, es.any (fun e => e.1 == p.1) = false) →
      (ks.map Prod.fst).Nodup →
      es.length + ks.length ≤ ms →
      cachePutAll ⟨ms, es⟩ ks = (⟨ms, ks.reverse ++ es⟩, []) := by
  intro ks
  induction ks with
  | nil =>
      intro ms es _ _ _
      simp [cachePutAll]
  | cons a t ih =>
      intro ms es hfresh hnodup hlen
      obtain ⟨k, v⟩ := a
      have hka : es.any (fun e => e.1 == k) = false := hfresh (k, v) (List.mem_cons_self _ _)
      have hlt : es.length < ms := by
        simp only [List.length_cons] at hlen
        omega
      have hput : cachePut ⟨ms, es⟩ k v = (⟨ms, (k, v) :: es⟩, []) := by
        simp [cachePut, hka, hlt]
      have hknt : k ∉ t.map Prod.fst := by
        simp only [List.map_cons, List.nodup_cons] at hnodup
        exact hnodup.1
      have hfresh2 : ∀ p ∈ t, ((k, v) :: es).any (fun e => e.1 == p.1) = false := by
        intro p hp
        have h1 : es.any (fun e => e.1 == p.1) = false :=
          hfresh p (List.mem_cons_of_mem _ hp)
        have h2 : (k == p.1) = false := by
          simp only [beq_eq_false_iff_ne, ne_eq]
          intro he
          exact hknt (he ▸ List.mem_map_of_mem Prod.fst hp)
        simp [List.any_cons, h1, h2]
      have hnodup2 : (t.map Prod.fst).Nodup := by
        simp only [List.map_cons, List.nodup_cons] at hnodup
        exact hnodup.2
      have hlen2 : ((k, v) :: es).length + t.length ≤ ms := by
        simp only [List.length_cons] at hlen ⊢
        omega
      have hrec := ih ms ((k, v) :: es) hfresh2 hnodup2 hlen2
      simp only [cachePutAll, hput, hrec]
      simp [List.reverse_cons, List.append_assoc]

/-- C6: the cache never holds more than maxSize entries; inserting a fresh
key when at capacity evicts exactly the least-recently-used (last) entry;
and inserting maxSize + 1 pairwise distinct keys into an empty cache evicts
exactly one entry, the least-recently-accessed (first-inserted) key. -/
theorem cache_capacity_and_lru_eviction :
    (∀ (c : LruCache) (k v : String), 1 ≤ c.maxSize → c.entries.length ≤ c.maxSize →
      (cachePut c k v).1.entries.length ≤ c.maxSize) ∧
    (∀ (c : LruCache) (k v : String),
      c.entries.any (fun e => e.1 == k) = false →
      c.entries.length = c.maxSize → 1 ≤ c.maxSize →
      (cachePut c k v).1.entries = (k, v) :: c.entries.dropLast ∧
      (cachePut c k v).2 = c.entries.getLast?.toList ∧
      (cachePut c k v).2.length = 1) ∧
    (∀ (m : Nat) (k z : String) (keys : List String),
      (k :: (keys ++ [z])).Nodup → keys.length + 1 = m →
      cachePutAll { maxSize := m, entries := [] }
          ((k :: (keys ++ [z])).map (fun x => (x, x))) =
        ({ maxSize := m, entries := (z, z) :: (keys.map (fun x => (x, x))).reverse },
         [(k, k)])) := by
  refine ⟨?_, ?_, ?_⟩
  · intro c k v hms hlen
    unfold cachePut
    split_ifs with h1 h2
    · have hf := length_filter_out_lt k c.entries h1
      show ((k, v) :: c.entries.filter (fun e => !(e.1 == k))).length ≤ c.maxSize
      simp only [List.length_cons]
      omega
    · show ((k, v) :: c.entries).length ≤ c.maxSize
      simp only [List.length_cons]
      omega
    · show ((k, v) :: c.entries.dropLast).length ≤ c.maxSize
      simp only [List.length_cons, List.length_dropLast]
      omega
  · intro c k v hany hlen hms
    have hnlt : ¬ c.entries.length < c.maxSize := by omega
    have hput : cachePut c k v =
        ({ c with entries := (k, v) :: c.entries.dropLast }, c.entries.getLast?.toList) := by
      simp [cachePut, hany, hnlt]
    refine ⟨by rw [hput], by rw [hput], ?_⟩
    rw [hput]
    have hne : c.entries ≠ [] := by
      intro he
      rw [he] at hlen
      simp at hlen
      omega
    obtain ⟨x, hx⟩ := Option.isSome_iff_exists.mp (List.getLast?_isSome.mpr hne)
    rw [hx]
    rfl
  · intro m k z keys hnodup hm
    have hkmem : k ∉ keys ++ [z] := (List.nodup_cons.mp hnodup).1
    have htail : (keys ++ [z]).Nodup := (List.nodup_cons.mp hnodup).2
    have hknk : k ∉ keys := fun h => hkmem (List.mem_append_left _ h)
    have hkz : k ≠ z := fun h => hkmem (List.mem_append_right _ (by simp [h]))
    have hzkeys : z ∉ keys := by
      rcases List.nodup_append.mp htail with ⟨-, -, hdisj⟩
      intro hz
      exact hdisj hz (by simp)
    have hkeysnd : keys.Nodup := (List.nodup_append.mp htail).1
    have hm1 : 0 < m := by omega
    have hmap : (k :: (keys ++ [z])).map (fun x => (x, x)) =
        (k, k) :: ((keys.map fun x => (x, x)) ++ [(z, z)]) := by
      simp
    have hput1 : cachePut ⟨m, []⟩ k k = (⟨m, [(k, k)]⟩, []) := by
      simp [cachePut, hm1]
    have hfreshk : ∀ p ∈ keys.map (fun x => (x, x)),
        ([(k, k)] : List (String × String)).any (fun e => e.1 == p.1) = false := by
      intro p hp
      obtain ⟨x, hx, rfl⟩ := List.mem_map.mp hp
      simp only [List.any_cons, List.any_nil, Bool.or_false, beq_eq_false_iff_ne, ne_eq]
      intro he
      exact hknk (he ▸ hx)
    have hndk : ((keys.map fun x => (x, x)).map Prod.fst).Nodup := by
      have hcomp : (Prod.fst ∘ fun x : String => (x, x)) = id := rfl
      rw [List.map_map, hcomp, List.map_id]
      exact hkeysnd
    have hlenk : ([(k, k)] : List (String × String)).length +
        (keys.map fun x => (x, x)).length ≤ m := by
      simp only [List.length_singleton, List.length_map]
      omega
    have hrun := cachePutAll_fresh (keys.map fun x => (x, x)) m [(k, k)] hfreshk hndk hlenk
    have hanyz : ((keys.map fun x => (x, x)).reverse ++ [(k, k)]).any
        (fun e => e.1 == z) = false := by
      rw [List.any_eq_false]
      intro x hx
      simp only [List.mem_append, List.mem_reverse, List.mem_singleton] at hx
      simp only [Bool.not_eq_true, beq_eq_false_iff_ne, ne_eq]
      rcases hx with hx | rfl
      · obtain ⟨y, hy, rfl⟩ := List.mem_map.mp hx
        intro he
        exact hzkeys (he ▸ hy)
      · intro he
        exact hkz he
    have hlenz : ((keys.map fun x => (x, x)).reverse ++ [(k, k)]).length = m := by
      simp only [List.length_append, List.length_reverse, List.length_map,
        List.length_singleton]
      omega
    have hnltz : ¬ ((keys.map fun x => (x, x)).reverse ++ [(k, k)]).length < m := by
      omega
    have hputz : cachePut ⟨m, (keys.map fun x => (x, x)).reverse ++ [(k, k)]⟩ z z =
        (⟨m, (z, z) :: (keys.map fun x => (x, x)).reverse⟩, [(k, k)]) := by
      simp [cachePut, hanyz, hnltz, List.dropLast_concat, List.getLast?_concat]
      omega
    rw [hmap]
    simp only [cachePutAll, hput1]
    rw [cachePutAll_append (keys.map fun x => (x, x)) [(z, z)] ⟨m, [(k, k)]⟩]
    rw [hrun]
    simp only [cachePutAll, hputz]
    simp

/-- Witness for C6: maxSize 2, inserting the three distinct keys a, b, c —
exactly the first-inserted key a is evicted. -/
theorem cache_capacity_and_lru_eviction_witness :
    ("a" :: (["b"] ++ ["c"])).Nodup ∧
    cachePutAll { maxSize := 2, entries := [] }
        (("a" :: (["b"] ++ ["c"])).map (fun x => (x, x))) =
      ({ maxSize := 2, entries := ("c", "c") :: ((["b"].map fun x => (x, x)).reverse) },
       [("a", "a")]) :=
  ⟨by decide, cache_capacity_and_lru_eviction.2.2 2 "a" "c" ["b"] (by decide) (by decide)⟩

end DosaClub
